import Mathlib

/-!
Verification of the wind-energy-to-building-coverage estimator embedded in
`windturbinesimOB25D.js` (Wind Turbine Grid Simulator).  The per-sample
physics, the daily/annual aggregation, the coverage arithmetic and the UI
render step are translated here as a shallow embedding over the reals, and
the specified properties are proved against the translation.
-/

noncomputable section

/-- One wind-vector sample: the `100m_u_component_of_wind` and
`100m_v_component_of_wind` bands read per image in the daily map. -/
structure WindSample where
  u : ℝ
  v : ℝ

/-- Static turbine constants, from `CONFIG.PHYSICS` (rotor 120 m,
efficiency 0.40, air density 1.225, nameplate cap 3000 kW) together with
the cut-in 3 m/s and cut-out 25 m/s speeds hard-coded in the power curve. -/
structure TurbineConfig where
  rotorDiameterMeters : ℝ
  systemEfficiency : ℝ
  airDensity : ℝ
  cutInSpeed : ℝ
  cutOutSpeed : ℝ
  maxGenerationKW : ℝ

/-- The configuration the script runs with (`CONFIG.PHYSICS` plus the
literal 3 / 25 m/s thresholds of the power curve). -/
def defaultConfig : TurbineConfig :=
  { rotorDiameterMeters := 120
    systemEfficiency := 0.40
    airDensity := 1.225
    cutInSpeed := 3
    cutOutSpeed := 25
    maxGenerationKW := 3000 }

/-- `var speed = u.hypot(v)` — wind speed from the component bands. -/
def speed (s : WindSample) : ℝ :=
  Real.sqrt (s.u ^ 2 + s.v ^ 2)

/-- `var wpd = speed.pow(3).multiply(0.5 * CONFIG.PHYSICS.AIR_DENSITY)` —
wind power density in W/m². -/
def wpd (cfg : TurbineConfig) (s : WindSample) : ℝ :=
  0.5 * cfg.airDensity * speed s ^ 3

/-- `var area = Math.PI * (radius * radius)` with
`radius = ROTOR_DIAMETER_M / 2.0` — rotor swept area in m². -/
def sweptArea (cfg : TurbineConfig) : ℝ :=
  Real.pi * (cfg.rotorDiameterMeters / 2 * (cfg.rotorDiameterMeters / 2))

/-- `var rawPowerW = wpd.multiply(area).multiply(SYSTEM_EFFICIENCY)` —
raw electrical power in W. -/
def rawPowerW (cfg : TurbineConfig) (s : WindSample) : ℝ :=
  wpd cfg s * sweptArea cfg * cfg.systemEfficiency

/-- Raw electrical power converted to kW (`rawPowerW.divide(1000)`). -/
def rawPowerKW (cfg : TurbineConfig) (s : WindSample) : ℝ :=
  rawPowerW cfg s / 1000

/-- The power curve of the script, lines 382-385:
`rawPowerW.divide(1000).min(MAX_GENERATION_KW).where(speed.lt(3).or(speed.gt(25)), 0)`.
The `where` overrides the capped value with 0 outside the operating band. -/
def generationKW (cfg : TurbineConfig) (s : WindSample) : ℝ :=
  let capped := min (rawPowerKW cfg s) cfg.maxGenerationKW
  if speed s < cfg.cutInSpeed ∨ cfg.cutOutSpeed < speed s then 0 else capped

/-- Daily aggregate produced per day `n` of the time series: the mean WPD
(`WPD` property) and the mean generation converted to daily energy
(`Daily_KWh_Per_Turbine`, mean kW × 24). -/
structure DailyWindRecord where
  meanPowerDensity : ℝ
  meanGenerationPerTurbine : ℝ

/-- One day of the `dailyData` map (lines 361-400): averages `wpd` and
`generationKW` over the day's samples and multiplies mean kW by 24; a day
with no samples yields `none` (the null features the script filters out
with `ee.Filter.notNull`). -/
def computeDailyRecord (cfg : TurbineConfig) (samples : List WindSample) :
    Option DailyWindRecord :=
  if samples.isEmpty then none
  else some
    { meanPowerDensity := (samples.map (wpd cfg)).sum / samples.length
      meanGenerationPerTurbine :=
        (samples.map (generationKW cfg)).sum / samples.length * 24 }

/-- User-adjustable scenario parameters read from the two sliders:
`turbSlider.getValue()` (number of turbines) and `loadSlider.getValue()`
(daily household load in kWh). -/
structure ScenarioParams where
  numTurbines : ℕ
  dailyLoadPerHouseholdKWh : ℝ

/-- The feasibility quantities computed in `renderVisuals` lines 208-215. -/
structure CoverageResult where
  totalDailyKWh : ℝ
  homesSupported : ℤ
  coverageRatio : ℝ
  cappedRatio : ℝ

/-- Lines 208-215 of `renderVisuals`:
`totalDailyKWh = kwhPerTurbine * numTurbines`;
`homesSupported = Math.floor(totalDailyKWh / consumption)`;
`coverageRatio` starts at 0 and is assigned `homesSupported / buildings`
only when `buildings > 0`; `cappedRatio = Math.min(coverageRatio, 1.0)`. -/
def computeBuildingCoverage (buildings : ℕ) (sc : ScenarioParams)
    (meanGen : ℝ) : CoverageResult :=
  let totalDailyKWh := meanGen * sc.numTurbines
  let homesSupported := ⌊totalDailyKWh / sc.dailyLoadPerHouseholdKWh⌋
  let coverageRatio :=
    if 0 < buildings then (homesSupported : ℝ) / buildings else 0
  let cappedRatio := min coverageRatio 1
  ⟨totalDailyKWh, homesSupported, coverageRatio, cappedRatio⟩

/-- The status indicator of lines 269-281. -/
inductive CoverageStatus where
  | fullCoverage
  | partCoverage
deriving DecidableEq

/-- Lines 269-281: `pctVal = coverageRatio * 100`; the label is
FULL COVERAGE when `pctVal >= 100` and PARTIAL COVERAGE otherwise. The
unclamped ratio, not `cappedRatio`, feeds this decision. -/
def coverageStatus (coverageRatio : ℝ) : CoverageStatus :=
  if 100 ≤ coverageRatio * 100 then .fullCoverage else .partCoverage

/-- Annual aggregate of the daily records (`aggregate_mean` of `WPD` and
of `Daily_KWh_Per_Turbine`, lines 413-414). -/
structure AnnualSummary where
  meanWPD : ℝ
  meanGenerationPerTurbine : ℝ

/-- The `count === 0` guard of lines 405-410: an empty record list is a
user-visible no-data error. -/
inductive NoDataError where
  | noWindData
deriving DecidableEq

/-- Lines 405-414: `dailyData.size().evaluate` checks `count === 0` and
reports the no-data error without computing any mean; otherwise the
arithmetic means of both fields are taken. -/
def computeAnnualSummary (records : List DailyWindRecord) :
    Except NoDataError AnnualSummary :=
  if records.length = 0 then .error .noWindData
  else .ok
    { meanWPD := (records.map DailyWindRecord.meanPowerDensity).sum /
        records.length
      meanGenerationPerTurbine :=
        (records.map DailyWindRecord.meanGenerationPerTurbine).sum /
          records.length }

/-- The computation-relevant fields of the global `APP_STATE` object. -/
structure AppState where
  wpd : ℝ
  kwhPerTurbine : ℝ
  buildings : ℕ
  hasData : Bool
  timeSeriesData : List DailyWindRecord

/-- What one invocation of `renderVisuals` computes: the feasibility
quantities, the status label, and the per-day `Houses_Powered` chart
series (line 290: `totalGen.divide(consumption).floor()`). -/
structure RenderOutput where
  coverage : CoverageResult
  status : CoverageStatus
  housesPowered : List ℤ

/-- `renderVisuals` as an explicit state-passing step (lines 201-250 and
269-290): it returns early with no output when `hasData` is false,
otherwise computes the coverage result, status and chart series from the
state and slider values. It only reads `APP_STATE`, never writes it, so
the state component of the result is the input state. -/
def renderVisuals (st : AppState) (numTurbines : ℕ) (consumption : ℝ) :
    Option RenderOutput × AppState :=
  if st.hasData then
    let c := computeBuildingCoverage st.buildings
      ⟨numTurbines, consumption⟩ st.kwhPerTurbine
    let houses := st.timeSeriesData.map fun r =>
      ⌊r.meanGenerationPerTurbine * numTurbines / consumption⌋
    (some ⟨c, coverageStatus c.coverageRatio, houses⟩, st)
  else (none, st)

/-- Configured range of a UI slider (`ui.Slider({min, max, step, ...})`).
The platform clamps the slider value to this range, so any value a slider
can hold satisfies `admits`. -/
structure SliderSpec where
  minVal : ℝ
  maxVal : ℝ
  stepVal : ℝ

/-- Line 142: `ui.Slider({min: 1, max: 10, value: 1, step: 1, ...})`. -/
def turbSliderSpec : SliderSpec := ⟨1, 10, 1⟩

/-- Line 145: `ui.Slider({min: 0.5, max: 30, value: 1.5, step: 0.5, ...})`. -/
def loadSliderSpec : SliderSpec := ⟨0.5, 30, 0.5⟩

/-- A value the slider can hold: within the configured range. -/
def SliderSpec.admits (sp : SliderSpec) (v : ℝ) : Prop :=
  sp.minVal ≤ v ∧ v ≤ sp.maxVal

end

/-- C1: In the power curve, a sample whose speed is strictly below cut-in
(3 m/s) or strictly above cut-out (25 m/s) generates 0; any other sample
generates the minimum of the raw electrical power in kW and the 3000 kW
nameplate cap. -/
theorem powerCurve_piecewise (s : WindSample) :
    (speed s < defaultConfig.cutInSpeed ∨ defaultConfig.cutOutSpeed < speed s →
      generationKW defaultConfig s = 0) ∧
    (¬ (speed s < defaultConfig.cutInSpeed ∨ defaultConfig.cutOutSpeed < speed s) →
      generationKW defaultConfig s =
        min (rawPowerKW defaultConfig s) defaultConfig.maxGenerationKW) := by
  constructor
  · intro h
    simp only [generationKW, if_pos h]
  · intro h
    simp only [generationKW, if_neg h]

/-- Witness for C1: the sample u = 0, v = 1 has speed 1 < 3, so it
generates 0; evaluated through `powerCurve_piecewise`. -/
theorem powerCurve_piecewise_witness :
    generationKW defaultConfig ⟨0, 1⟩ = 0 := by
  apply (powerCurve_piecewise ⟨0, 1⟩).1
  left
  have h1 : speed ⟨0, 1⟩ = 1 := by
    simp only [speed]
    rw [show ((0 : ℝ) ^ 2 + 1 ^ 2) = 1 ^ 2 by norm_num]
    exact Real.sqrt_sq (by norm_num)
  rw [h1]
  norm_num [defaultConfig]

/-- C2: for every wind sample the per-turbine generation value lies
between 0 and the nameplate cap `maxGenerationKW = 3000`. -/
theorem generation_bounded (s : WindSample) :
    0 ≤ generationKW defaultConfig s ∧
      generationKW defaultConfig s ≤ defaultConfig.maxGenerationKW := by
  have hspeed : 0 ≤ speed s := Real.sqrt_nonneg _
  have hwpd : 0 ≤ wpd defaultConfig s := by
    have : 0 ≤ speed s ^ 3 := by positivity
    simp only [wpd, defaultConfig]
    nlinarith
  have harea : 0 ≤ sweptArea defaultConfig := by
    simp only [sweptArea, defaultConfig]
    positivity
  have hraw : 0 ≤ rawPowerKW defaultConfig s := by
    simp only [rawPowerKW, rawPowerW]
    have heff : (0 : ℝ) ≤ defaultConfig.systemEfficiency := by norm_num [defaultConfig]
    positivity
  simp only [generationKW]
  split_ifs with h
  · exact ⟨le_refl 0, by norm_num [defaultConfig]⟩
  · exact ⟨le_min hraw (by norm_num [defaultConfig]), min_le_right _ _⟩

/-- C10: the power-curve boundaries are inclusive on the generating side —
at speed exactly 3 m/s or exactly 25 m/s the zeroing condition
(`speed < 3 ∨ speed > 25`, strict) is false, so the sample generates
`min(rawPowerKW, maxGenerationKW)`. -/
theorem powerCurve_boundary_inclusive (s : WindSample)
    (h : speed s = defaultConfig.cutInSpeed ∨ speed s = defaultConfig.cutOutSpeed) :
    generationKW defaultConfig s =
      min (rawPowerKW defaultConfig s) defaultConfig.maxGenerationKW := by
  simp only [generationKW]
  rw [if_neg]
  rcases h with h | h <;> rw [h] <;> push_neg <;>
    refine ⟨by norm_num [defaultConfig], by norm_num [defaultConfig]⟩

/-- Witness for C10: the sample u = 3, v = 0 has speed exactly the cut-in
speed 3 m/s, and `powerCurve_boundary_inclusive` applies to it. -/
theorem powerCurve_boundary_inclusive_witness :
    generationKW defaultConfig ⟨3, 0⟩ =
      min (rawPowerKW defaultConfig ⟨3, 0⟩) defaultConfig.maxGenerationKW := by
  apply powerCurve_boundary_inclusive ⟨3, 0⟩
  left
  simp only [speed, defaultConfig]
  rw [show ((3 : ℝ) ^ 2 + 0 ^ 2) = 3 ^ 2 by norm_num]
  exact Real.sqrt_sq (by norm_num)

/-- C3: the coverage computation never divides by zero — with zero
buildings the coverage ratio is defined to be 0 (and a full
CoverageResult is still produced), and with a positive building count the
ratio is homesSupported divided by the count. -/
theorem coverage_no_division_by_zero (sc : ScenarioParams) (meanGen : ℝ) :
    (computeBuildingCoverage 0 sc meanGen).coverageRatio = 0 ∧
    ∀ b : ℕ, 0 < b →
      (computeBuildingCoverage b sc meanGen).coverageRatio =
        ((computeBuildingCoverage b sc meanGen).homesSupported : ℝ) / b := by
  constructor
  · simp [computeBuildingCoverage]
  · intro b hb
    simp [computeBuildingCoverage, if_pos hb]

/-- Witness for C3: homesSupported = 50 with zero buildings gives
coverageRatio = 0 without any crash, via `coverage_no_division_by_zero`;
and with 25 buildings the ratio is 50 / 25. -/
theorem coverage_no_division_by_zero_witness :
    (computeBuildingCoverage 0 ⟨1, 1⟩ 50).homesSupported = 50 ∧
    (computeBuildingCoverage 0 ⟨1, 1⟩ 50).coverageRatio = 0 ∧
    (computeBuildingCoverage 25 ⟨1, 1⟩ 50).coverageRatio =
      ((computeBuildingCoverage 25 ⟨1, 1⟩ 50).homesSupported : ℝ) / 25 := by
  refine ⟨?_, (coverage_no_division_by_zero ⟨1, 1⟩ 50).1,
    (coverage_no_division_by_zero ⟨1, 1⟩ 50).2 25 (by norm_num)⟩
  simp [computeBuildingCoverage]

/-- C4: for a valid scenario (at least one turbine, positive household
load) the coverage computation takes totalDailyKWh to be the mean daily
generation per turbine times the turbine count, and homesSupported to be
the floor of totalDailyKWh over the per-household load. -/
theorem coverage_energy_and_homes (b : ℕ) (sc : ScenarioParams)
    (meanGen : ℝ) (_h1 : 1 ≤ sc.numTurbines)
    (_h2 : 0 < sc.dailyLoadPerHouseholdKWh) :
    (computeBuildingCoverage b sc meanGen).totalDailyKWh =
      meanGen * sc.numTurbines ∧
    (computeBuildingCoverage b sc meanGen).homesSupported =
      ⌊meanGen * sc.numTurbines / sc.dailyLoadPerHouseholdKWh⌋ := by
  exact ⟨rfl, rfl⟩

/-- Witness for C4: two turbines at 50 kWh/day each against a 1 kWh/day
household load give 100 kWh total and 100 homes supported. -/
theorem coverage_energy_and_homes_witness :
    1 ≤ (ScenarioParams.mk 2 1).numTurbines ∧
    0 < (ScenarioParams.mk 2 1).dailyLoadPerHouseholdKWh ∧
    (computeBuildingCoverage 10 ⟨2, 1⟩ 50).totalDailyKWh = 100 ∧
    (computeBuildingCoverage 10 ⟨2, 1⟩ 50).homesSupported = 100 := by
  have h := coverage_energy_and_homes 10 ⟨2, 1⟩ 50 (by norm_num) (by norm_num)
  refine ⟨by norm_num, by norm_num, ?_, ?_⟩
  · rw [h.1]; norm_num
  · rw [h.2]
    rw [show (50 : ℝ) * (ScenarioParams.mk 2 1).numTurbines /
        (ScenarioParams.mk 2 1).dailyLoadPerHouseholdKWh = ((100 : ℤ) : ℝ) by
      norm_num]
    exact Int.floor_intCast 100

/-- C5: the capped ratio always equals min(coverageRatio, 1) while the
status decision uses the unclamped ratio: any ratio below 1 reports
partial coverage, any ratio of at least 1 reports full coverage, and the
concrete case homesSupported = 150 over 100 buildings yields
coverageRatio = 1.5, cappedRatio = 1 and the full-coverage status. -/
theorem cappedRatio_and_status :
    (∀ (b : ℕ) (sc : ScenarioParams) (g : ℝ),
      (computeBuildingCoverage b sc g).cappedRatio =
        min (computeBuildingCoverage b sc g).coverageRatio 1) ∧
    (∀ r : ℝ, r < 1 → coverageStatus r = .partCoverage) ∧
    (∀ r : ℝ, 1 ≤ r → coverageStatus r = .fullCoverage) ∧
    ((computeBuildingCoverage 100 ⟨1, 1⟩ 150).homesSupported = 150 ∧
      (computeBuildingCoverage 100 ⟨1, 1⟩ 150).coverageRatio = 1.5 ∧
      (computeBuildingCoverage 100 ⟨1, 1⟩ 150).cappedRatio = 1 ∧
      coverageStatus (computeBuildingCoverage 100 ⟨1, 1⟩ 150).coverageRatio =
        .fullCoverage) := by
  have hfloor : (⌊(150 : ℝ) * ((1 : ℕ) : ℝ) / 1⌋ : ℤ) = 150 := by
    rw [show (150 : ℝ) * ((1 : ℕ) : ℝ) / 1 = ((150 : ℤ) : ℝ) by norm_num]
    exact Int.floor_intCast 150
  refine ⟨fun b sc g => rfl, fun r hr => ?_, fun r hr => ?_, ?_⟩
  · simp only [coverageStatus]
    rw [if_neg (by nlinarith)]
  · simp only [coverageStatus]
    rw [if_pos (by nlinarith)]
  · have hhomes : (computeBuildingCoverage 100 ⟨1, 1⟩ 150).homesSupported = 150 := by
      simp only [computeBuildingCoverage]
      exact hfloor
    have hratio : (computeBuildingCoverage 100 ⟨1, 1⟩ 150).coverageRatio = 1.5 := by
      simp only [computeBuildingCoverage, if_pos (show 0 < 100 by norm_num)]
      rw [hfloor]
      norm_num
    refine ⟨hhomes, hratio, ?_, ?_⟩
    · show min (computeBuildingCoverage 100 ⟨1, 1⟩ 150).coverageRatio 1 = 1
      rw [hratio]
      norm_num
    · rw [hratio]
      simp only [coverageStatus]
      rw [if_pos (by norm_num)]

/-- Witness for C5: a ratio of 0.5 (below 1) reports partial coverage,
via `cappedRatio_and_status`. -/
theorem cappedRatio_and_status_witness :
    coverageStatus 0.5 = .partCoverage :=
  cappedRatio_and_status.2.1 0.5 (by norm_num)

/-- C7: the annual summary requires at least one daily record — on an
empty list it signals the no-data error and computes no mean; on a
nonempty list it returns the arithmetic mean of each field. -/
theorem annualSummary_requires_data :
    computeAnnualSummary [] = .error .noWindData ∧
    ∀ records : List DailyWindRecord, records ≠ [] →
      computeAnnualSummary records = .ok
        { meanWPD := (records.map DailyWindRecord.meanPowerDensity).sum /
            records.length
          meanGenerationPerTurbine :=
            (records.map DailyWindRecord.meanGenerationPerTurbine).sum /
              records.length } := by
  constructor
  · rfl
  · intro records hne
    simp only [computeAnnualSummary,
      if_neg (fun h => hne (List.length_eq_zero.mp h))]

/-- Witness for C7: a one-record list with WPD 76 and 8000 kWh/day
averages to itself, via `annualSummary_requires_data`. -/
theorem annualSummary_requires_data_witness :
    computeAnnualSummary [⟨76, 8000⟩] = .ok ⟨76, 8000⟩ := by
  have h := annualSummary_requires_data.2 [⟨76, 8000⟩] (by simp)
  rw [h]
  norm_num

/-- C9: the render step has no hidden state drift — it leaves the
application state unchanged, and invoking it a second time on the state
it returned with the same slider values reproduces exactly the same
output and state. -/
theorem renderVisuals_idempotent (st : AppState) (n : ℕ) (c : ℝ) :
    (renderVisuals st n c).2 = st ∧
    renderVisuals (renderVisuals st n c).2 n c = renderVisuals st n c := by
  have h : (renderVisuals st n c).2 = st := by
    simp only [renderVisuals]
    split_ifs <;> rfl
  exact ⟨h, by rw [h]⟩

/-- C8 counterexample: the script raises no InvalidScenarioError — for
the concrete invalid scenario with numTurbines = 0 (violating
numTurbines ≥ 1) the coverage computation is still performed and
completes, returning a fully-computed CoverageResult instead of
rejecting the scenario before computation. -/
theorem invalidScenario_not_rejected :
    ¬ (1 ≤ (ScenarioParams.mk 0 1).numTurbines) ∧
    computeBuildingCoverage 10 ⟨0, 1⟩ 100 =
      { totalDailyKWh := 0, homesSupported := 0, coverageRatio := 0,
        cappedRatio := 0 } := by
  constructor
  · decide
  · simp [computeBuildingCoverage]

/-- C8 amended: no InvalidScenarioError exists in the code; instead the
two sliders are configured with min 1 (turbines) and min 0.5 (load), so
every pair of values the sliders can hold — the only scenarios that ever
reach the coverage computation — satisfies numTurbines ≥ 1 and
dailyLoadPerHouseholdKWh > 0. Out-of-range scenarios are excluded by the
slider ranges rather than by a raised error. -/
theorem sliders_enforce_valid_scenario (t l : ℝ)
    (ht : turbSliderSpec.admits t) (hl : loadSliderSpec.admits l) :
    1 ≤ t ∧ 0 < l := by
  obtain ⟨ht1, -⟩ := ht
  obtain ⟨hl1, -⟩ := hl
  refine ⟨ht1, ?_⟩
  have h05 : (0.5 : ℝ) ≤ l := hl1
  linarith

/-- Witness for the amended C8: the default slider values 1 turbine and
1.5 kWh/day are admissible and give a valid scenario, via
`sliders_enforce_valid_scenario`. -/
theorem sliders_enforce_valid_scenario_witness :
    1 ≤ (1 : ℝ) ∧ 0 < (1.5 : ℝ) :=
  sliders_enforce_valid_scenario 1 1.5
    ⟨by norm_num [turbSliderSpec], by norm_num [turbSliderSpec]⟩
    ⟨by norm_num [loadSliderSpec], by norm_num [loadSliderSpec]⟩

/-- C6: the pipeline evaluated on the single sample u = 3, v = 4 with the
default constants: speed is exactly 5 m/s (inside the curve), wind power
density is exactly 0.5 × 1.225 × 125 = 76.5625 ≈ 76.56 W/m², the swept
area is 3600π ≈ 11309.7 m², the raw power is 110.25π ≈ 346.3 kW, the
generation equals the raw power (below the 3000 kW cap), and the daily
record holds that mean WPD together with a daily energy of
mean kW × 24 = 2646π ≈ 8311 kWh (within 2 kWh). -/
theorem singleSample_evaluation :
    speed ⟨3, 4⟩ = 5 ∧
    wpd defaultConfig ⟨3, 4⟩ = 76.5625 ∧
    |sweptArea defaultConfig - 11309.7| ≤ 0.1 ∧
    |rawPowerKW defaultConfig ⟨3, 4⟩ - 346.3| ≤ 0.1 ∧
    generationKW defaultConfig ⟨3, 4⟩ = rawPowerKW defaultConfig ⟨3, 4⟩ ∧
    ∃ r : DailyWindRecord,
      computeDailyRecord defaultConfig [⟨3, 4⟩] = some r ∧
      r.meanPowerDensity = 76.5625 ∧
      r.meanGenerationPerTurbine = generationKW defaultConfig ⟨3, 4⟩ * 24 ∧
      |r.meanGenerationPerTurbine - 8311| ≤ 2 := by
  have hpi1 := Real.pi_gt_d6
  have hpi2 := Real.pi_lt_d6
  have hs : speed ⟨3, 4⟩ = 5 := by
    simp only [speed]
    rw [show ((3 : ℝ) ^ 2 + 4 ^ 2) = 5 ^ 2 by norm_num]
    exact Real.sqrt_sq (by norm_num)
  have hw : wpd defaultConfig ⟨3, 4⟩ = 76.5625 := by
    simp only [wpd, hs, defaultConfig]
    norm_num
  have harea : sweptArea defaultConfig = Real.pi * 3600 := by
    simp only [sweptArea, defaultConfig]
    norm_num
  have hraw : rawPowerKW defaultConfig ⟨3, 4⟩ = 110.25 * Real.pi := by
    simp only [rawPowerKW, rawPowerW, hw, harea]
    show 76.5625 * (Real.pi * 3600) * (0.40 : ℝ) / 1000 = 110.25 * Real.pi
    ring
  have hareaBound : |sweptArea defaultConfig - 11309.7| ≤ 0.1 := by
    rw [harea, abs_le]
    constructor <;> nlinarith
  have hrawBound : |rawPowerKW defaultConfig ⟨3, 4⟩ - 346.3| ≤ 0.1 := by
    rw [hraw, abs_le]
    constructor <;> nlinarith
  have hgen : generationKW defaultConfig ⟨3, 4⟩ =
      rawPowerKW defaultConfig ⟨3, 4⟩ := by
    simp only [generationKW, hs]
    rw [if_neg (by norm_num [defaultConfig])]
    refine min_eq_left ?_
    rw [hraw]
    show (110.25 : ℝ) * Real.pi ≤ 3000
    nlinarith
  have hrec : computeDailyRecord defaultConfig [⟨3, 4⟩] =
      some ⟨76.5625, 2646 * Real.pi⟩ := by
    simp only [computeDailyRecord, List.isEmpty_cons, Bool.false_eq_true,
      if_false, List.map_cons, List.map_nil, List.sum_cons, List.sum_nil,
      List.length_cons, List.length_nil, hw, hgen, hraw, Option.some.injEq,
      DailyWindRecord.mk.injEq]
    constructor
    · norm_num
    · push_cast
      ring
  refine ⟨hs, hw, hareaBound, hrawBound, hgen,
    ⟨76.5625, 2646 * Real.pi⟩, hrec, rfl, ?_, ?_⟩
  · show 2646 * Real.pi = generationKW defaultConfig ⟨3, 4⟩ * 24
    rw [hgen, hraw]
    ring
  · show |2646 * Real.pi - 8311| ≤ 2
    rw [abs_le]
    constructor <;> nlinarith
